import Mathlib

/-!
Verification of the pose-scoring demo (`src/camera.js`).

Shallow embedding of the per-frame scoring pipeline of `camera.js`:
the score computation (`recalculate`), the reference-image load
(`testImageAndEstimatePoses`), the frame loop (`poseDetectionFrame`),
the startup routine (`bindPage`), and — modelled from the spec, since
`utils.js` is not among the provided sources — the angle calculation.

JavaScript numbers stored in module state (`imgResult.leftElbow`,
`userResult.leftElbow`) are modelled as rationals; the idealised angle
mathematics (arccosine) is modelled over the reals.
-/

/-- The tolerance window, `const distance = 20` (camera.js line 95). -/
def distance : ℚ := 20

/-- The initial value of `imgResult.leftElbow` (camera.js lines 99-101):
the reference angle starts as the number 0, not as an absent marker. -/
def imgResultInit : ℚ := 0

/-- The initial value of `userResult.leftElbow` (camera.js lines 96-98). -/
def userResultInit : ℚ := 0

/-- JavaScript `Math.round`: rounds half toward positive infinity,
i.e. `⌊x + 1/2⌋`. -/
def jsRound (q : ℚ) : ℤ := ⌊q + 1/2⌋

/-- Embeds `recalculate` (camera.js lines 265-271).  The guard is
`userResult.leftElbow && |imgResult.leftElbow - userResult.leftElbow| <= distance`:
JavaScript truthiness of the number `userResult.leftElbow` is `≠ 0`.  When the
guard holds the score placeholder is overwritten with
`Math.round((1 - delta/distance) * 100)`; otherwise the displayed text is left
untouched.  `disp` is the current content of the score placeholder
(`none` before any write) and the result is its content afterwards. -/
def recalculate (img user : ℚ) (disp : Option ℤ) : Option ℤ :=
  if user ≠ 0 ∧ |img - user| ≤ distance then
    some (jsRound ((1 - |img - user| / distance) * 100))
  else disp

/-- Instrumentation of `recalculate` (camera.js lines 265-271) reporting only the
write it performs: `some s` when it sets the display to `s`, `none` when it
leaves the display unchanged. -/
def recalculateWrite (img user : ℚ) : Option ℤ :=
  if user ≠ 0 ∧ |img - user| ≤ distance then
    some (jsRound ((1 - |img - user| / distance) * 100))
  else none

lemma recalculate_eq_write (img user : ℚ) (disp : Option ℤ) :
    recalculate img user disp =
      match recalculateWrite img user with
      | some s => some s
      | none => disp := by
  unfold recalculate recalculateWrite
  split <;> rfl

/-- The single-pose confidence threshold,
`guiState.singlePoseDetection.minPoseConfidence = 0.7` (camera.js line 76). -/
def minPoseConfidenceSingle : ℚ := 7/10

/-- The multi-pose confidence threshold,
`guiState.multiPoseDetection.minPoseConfidence = 0.15` (camera.js line 81). -/
def minPoseConfidenceMulti : ℚ := 3/20

/-- A keypoint as returned by the external pose model: a named 2-D landmark
with a part-confidence score (spec section 3).  The landmark name is implicit in
the list position (PoseNet part id). -/
structure Keypoint where
  x : ℚ
  y : ℚ
  kscore : ℚ
deriving DecidableEq

/-- A detected pose: an overall confidence score and the keypoint list
(spec section 3; the shape destructured as `{ score, keypoints }` at
camera.js line 161). -/
structure Pose where
  score : ℚ
  keypoints : List Keypoint
deriving DecidableEq

/-- The failure signal of the angle computation on coincident points
(spec sections 4.1 and 7). -/
inductive DegenerateGeometry
  | degenerate
deriving DecidableEq

/-- Modelled from the spec: `angleOf` is the contract of `calculateAngle` in
`src/utils.js`, which is not among the provided sources (spec section 4.1).
It computes the angle at `vertex` between the rays to `pointA` and `pointB` by
the two-vector dot-product/arccosine formula, in degrees; the degenerate case
(`vertex` coinciding with `pointA` or `pointB`, a zero-length vector) is
explicitly guarded and fails with `DegenerateGeometry` instead of producing an
undefined value (the spec's NaN).  Coordinates are rational, the idealised
angle value is real. -/
noncomputable def angleOf (vertex pointA pointB : Keypoint) :
    Except DegenerateGeometry ℝ :=
  let ux : ℚ := pointA.x - vertex.x
  let uy : ℚ := pointA.y - vertex.y
  let vx : ℚ := pointB.x - vertex.x
  let vy : ℚ := pointB.y - vertex.y
  if (ux = 0 ∧ uy = 0) ∨ (vx = 0 ∧ vy = 0) then
    Except.error DegenerateGeometry.degenerate
  else
    Except.ok (Real.arccos (((ux * vx + uy * vy : ℚ) : ℝ) /
      (Real.sqrt ((ux : ℝ) ^ 2 + (uy : ℝ) ^ 2) *
        Real.sqrt ((vx : ℝ) ^ 2 + (vy : ℝ) ^ 2))) * 180 / Real.pi)

/-- Modelled from the spec: the `calculateAngle` entry point imported from
`./utils` (camera.js line 19), whose source is not provided.  Both call sites
(camera.js lines 163 and 229) pass `(wrist, elbow, shoulder)`; per spec
section 4.2 the elbow — the middle argument — is the vertex of the angle. -/
noncomputable def calculateAngle (p1 p2 p3 : Keypoint) :
    Except DegenerateGeometry ℝ :=
  angleOf p2 p1 p3

/-- Embeds the live extraction at camera.js line 163:
`userResult.leftElbow = calculateAngle(keypoints[9], keypoints[7], keypoints[5])`.
Keypoints 9, 7, 5 are the PoseNet left wrist, left elbow and left shoulder;
`none` models the TypeError a short keypoint list would raise. -/
noncomputable def liveLeftElbowOf (keypoints : List Keypoint) :
    Option (Except DegenerateGeometry ℝ) :=
  match keypoints[9]?, keypoints[7]?, keypoints[5]? with
  | some w, some e, some s => some (calculateAngle w e s)
  | _, _, _ => none

/-- Embeds the reference extraction at camera.js line 229:
`imgResult.leftElbow = calculateAngle(predictedPoses.keypoints[9],
predictedPoses.keypoints[7], predictedPoses.keypoints[5])`. -/
noncomputable def imgLeftElbowOf (keypoints : List Keypoint) :
    Option (Except DegenerateGeometry ℝ) :=
  match keypoints[9]?, keypoints[7]?, keypoints[5]? with
  | some w, some e, some s => some (calculateAngle w e s)
  | _, _, _ => none

/-- The module state mutated by one run of the `poses.forEach` body
(camera.js lines 161-175): `userResult.leftElbow` and the score placeholder. -/
structure FrameState where
  userLeftElbow : ℚ
  display : Option ℤ
deriving DecidableEq

/-- Embeds the `poses.forEach` loop of `poseDetectionFrame`
(camera.js lines 161-175), instrumented to also collect, in order, the write
each `recalculate()` call performs (`none` when a call leaves the display
unchanged; poses below `minPoseConfidence` trigger no call at all).
For each pose with `score >= minPoseConfidence`, line 163 overwrites
`userResult.leftElbow` with
`calculateAngle(keypoints[9], keypoints[7], keypoints[5])` and line 164 runs
`recalculate()` against the shared `imgResult.leftElbow` (`img`).  `angle`
abstracts the numeric value the (unprovided) `calculateAngle` of `src/utils.js`
returns for a keypoint list; every JavaScript float is a rational. -/
def posesForEach (angle : List Keypoint → ℚ) (minPoseConfidence img : ℚ) :
    FrameState → List Pose → FrameState × List (Option ℤ)
  | s, [] => (s, [])
  | s, p :: ps =>
      if minPoseConfidence ≤ p.score then
        let u := angle p.keypoints
        let s1 : FrameState := ⟨u, recalculate img u s.display⟩
        let r := posesForEach angle minPoseConfidence img s1 ps
        (r.1, recalculateWrite img u :: r.2)
      else
        posesForEach angle minPoseConfidence img s ps

/-- Embeds `testImageAndEstimatePoses` (camera.js lines 208-233) from the point
where the tensor has been created by `tf.browser.fromPixels(image)` (line 216).
`est` is the outcome of the external `net.estimatePoses(input, ...)` call
(line 219), which may reject.  The code then takes `predictedPoses = poses[0]`
(line 226); when the pose list is empty this is `undefined` and the access
`predictedPoses.score` (line 228) throws a TypeError, modelled as
`Except.error ()`.  On the non-throwing path the confidence check may update
`imgResult.leftElbow` (line 229) and `input.dispose()` (line 232) runs.  The
second component records whether `input.dispose()` was reached; there is no
try/finally in the source.  (`loadImage`, lines 183-194, installs only an
`onload` handler and can never reject after the tensor exists, because the
tensor is created after the image load resolves.)  `angle` abstracts the
numeric value of `calculateAngle` as in `posesForEach`. -/
def testImageAndEstimatePoses (est : Except Unit (List Pose))
    (angle : List Keypoint → ℚ) (imgLeftElbow0 minPoseConfidence : ℚ) :
    Except Unit ℚ × Bool :=
  match est with
  | Except.error e => (Except.error e, false)
  | Except.ok poses =>
      match poses.head? with
      | none => (Except.error (), false)
      | some p =>
          let img := if minPoseConfidence ≤ p.score then angle p.keypoints
                     else imgLeftElbow0
          (Except.ok img, true)

/-- Observable events of the frame loop: issuing the per-frame
`estimatePoses` call, its awaited completion, and
`requestAnimationFrame(poseDetectionFrame)`. -/
inductive FrameEv
  | estimateStart
  | estimateDone
  | scheduleNext
deriving DecidableEq

/-- Event trace of one run of `poseDetectionFrame` (camera.js lines 120-178).
Both switch branches (single-pose, line 126; multi-pose, line 135) issue
exactly one `estimatePoses` call and `await` it; the drawing, the `forEach`
over the poses, and only then `requestAnimationFrame(poseDetectionFrame)`
(line 177) run strictly after the awaited call has resolved. -/
def tickEvents : List FrameEv :=
  [FrameEv.estimateStart, FrameEv.estimateDone, FrameEv.scheduleNext]

/-- Event trace of `n` consecutive runs of `poseDetectionFrame`.  The callback
passed to `requestAnimationFrame` runs only after the current run has returned,
so the runs concatenate sequentially. -/
def loopEvents : Nat → List FrameEv
  | 0 => []
  | n + 1 => tickEvents ++ loopEvents n

/-- Reentrancy monitor over a frame-loop event trace: the Boolean state is
"an estimation call is in flight"; the monitor fails (returns `false`) exactly
when a second `estimateStart` is issued before the prior call completed. -/
def singleInFlight : Bool → List FrameEv → Bool
  | _, [] => true
  | true, FrameEv.estimateStart :: _ => false
  | false, FrameEv.estimateStart :: t => singleInFlight true t
  | _, FrameEv.estimateDone :: t => singleInFlight false t
  | b, FrameEv.scheduleNext :: t => singleInFlight b t

/-- The startup actions of `bindPage` (camera.js lines 239-263), in source
order: load the posenet model (line 241), open the camera (line 252), store
the net (line 260), start the continuous frame loop (line 261,
`detectPoseInRealTime`), and only then start the one-shot reference-image
estimation (line 262, `testImageAndEstimatePoses`, not awaited). -/
inductive StartupStep
  | loadModel
  | loadVideo
  | setNet
  | startFrameLoop
  | startRefLoad
deriving DecidableEq, BEq

/-- The ordered action list of `bindPage` (camera.js lines 239-263). -/
def bindPageEvents : List StartupStep :=
  [StartupStep.loadModel, StartupStep.loadVideo, StartupStep.setNet,
   StartupStep.startFrameLoop, StartupStep.startRefLoad]

/-- The module-level mutable state shared by the two asynchronous flows:
`imgResult.leftElbow`, `userResult.leftElbow`, the score placeholder, and
whether `testImageAndEstimatePoses` has completed its write. -/
structure SysState where
  imgLeftElbow : ℚ
  userLeftElbow : ℚ
  display : Option ℤ
  refLoadDone : Bool

/-- The state at the end of `bindPage`'s synchronous prefix: both flows have
been started, `imgResult.leftElbow` and `userResult.leftElbow` still hold
their initial 0 (camera.js lines 96-101), nothing has been written to the
score placeholder, and the reference load has not completed. -/
def initState : SysState :=
  ⟨imgResultInit, userResultInit, none, false⟩

/-- Interleaving semantics of the two flows after startup.  `frameTick u`
models one single-pose run of `poseDetectionFrame` whose detected pose passes
the confidence gate and whose computed left-elbow angle is `u` (camera.js
lines 163-164): it overwrites `userResult.leftElbow` and runs `recalculate`
against the current `imgResult.leftElbow`.  `refLoadComplete a` models the
completion of `testImageAndEstimatePoses` storing reference angle `a`
(line 229).  The frame loop is live before the reference load completes
because `bindPage` calls `detectPoseInRealTime` first and
`testImageAndEstimatePoses` suspends at its internal awaits. -/
inductive SysStep : SysState → SysState → Prop
  | frameTick (u : ℚ) (s : SysState) :
      SysStep s ⟨s.imgLeftElbow, u, recalculate s.imgLeftElbow u s.display,
                 s.refLoadDone⟩
  | refLoadComplete (a : ℚ) (s : SysState) :
      s.refLoadDone = false →
      SysStep s ⟨a, s.userLeftElbow, s.display, true⟩

/-- C1 (amended).  When a score is produced it equals
`round((1 - |img - user|/distance) * 100)`; under the production guard the
score is exactly 100 at delta 0 and exactly 0 at delta = distance; the score is
monotonically non-increasing as the delta grows within the tolerance window
(the claimed strict decrease fails, see the counterexample); and for reference
angle 90 the live angles 90, 100, 111 yield score 100, score 50, and no score
(display untouched) respectively. -/
theorem recalculate_score_formula :
    (∀ img user disp, user ≠ 0 → |img - user| ≤ distance →
        recalculate img user disp =
          some (jsRound ((1 - |img - user| / distance) * 100)))
    ∧ (∀ img user disp, user ≠ 0 → img = user →
        recalculate img user disp = some 100)
    ∧ (∀ img user disp, user ≠ 0 → |img - user| = distance →
        recalculate img user disp = some 0)
    ∧ (∀ img u1 u2 s1 s2, |img - u1| ≤ |img - u2| →
        recalculate img u1 none = some s1 → recalculate img u2 none = some s2 →
        s2 ≤ s1)
    ∧ (∀ disp, recalculate 90 90 disp = some 100 ∧
        recalculate 90 100 disp = some 50 ∧ recalculate 90 111 disp = disp) := by
  have hform : ∀ img user disp, user ≠ 0 → |img - user| ≤ distance →
      recalculate img user disp =
        some (jsRound ((1 - |img - user| / distance) * 100)) := by
    intro img user disp h1 h2
    simp only [recalculate]
    rw [if_pos ⟨h1, h2⟩]
  have hprod : ∀ img user s, recalculate img user none = some s →
      user ≠ 0 ∧ |img - user| ≤ distance ∧
        s = jsRound ((1 - |img - user| / distance) * 100) := by
    intro img user s h
    by_cases hg : user ≠ 0 ∧ |img - user| ≤ distance
    · rw [hform img user none hg.1 hg.2] at h
      exact ⟨hg.1, hg.2, (Option.some.injEq _ _ ▸ h).symm⟩
    · simp only [recalculate, if_neg hg] at h
      exact Option.noConfusion h
  refine ⟨hform, ?_, ?_, ?_, ?_⟩
  · intro img user disp h1 h2
    subst h2
    rw [hform _ _ disp h1 (by simp [distance])]
    norm_num [jsRound]
  · intro img user disp h1 h2
    rw [hform img user disp h1 (le_of_eq h2), h2]
    norm_num [jsRound, distance]
  · intro img u1 u2 s1 s2 hle e1 e2
    obtain ⟨-, hd1, rfl⟩ := hprod img u1 s1 e1
    obtain ⟨-, -, rfl⟩ := hprod img u2 s2 e2
    apply Int.floor_le_floor
    have h20 : distance = (20 : ℚ) := rfl
    rw [h20] at hd1 ⊢
    have := abs_nonneg (img - u1)
    linarith
  · intro disp
    refine ⟨?_, ?_, ?_⟩ <;> norm_num [recalculate, jsRound, distance]

/-- C1 witness: the formula conjunct applied at reference 90, live 100. -/
theorem recalculate_score_formula_witness :
    recalculate 90 100 none =
      some (jsRound ((1 - |(90 : ℚ) - 100| / distance) * 100)) :=
  recalculate_score_formula.1 90 100 none (by norm_num) (by norm_num [distance])

/-- C1 counterexample to strict decrease: the deltas 1/100 and 2/100 both lie
inside the tolerance window, the second is strictly larger, yet both live
angles produce the same displayed score 100 — the rounded score does not
strictly decrease as the delta increases. -/
theorem recalculate_strictness_counterexample :
    |(90 : ℚ) - 9001/100| < |(90 : ℚ) - 9002/100|
    ∧ recalculate 90 (9001/100) none = some 100
    ∧ recalculate 90 (9002/100) none = some 100 := by
  refine ⟨by norm_num [abs_of_nonneg], ?_, ?_⟩ <;>
    norm_num [recalculate, jsRound, distance, abs_of_nonneg]

/-- C2 (amended).  When the reference angle was never stored — `imgResult.leftElbow`
keeps its initial value 0 — the scoring operation skips the display only when
the live angle is 0 (falsy) or lies more than `distance` away from 0; for any
nonzero live angle within `distance` of 0 a score is still produced and
displayed, computed against the reference value 0. -/
theorem recalculate_absent_reference :
    (∀ user disp, user = 0 ∨ distance < |imgResultInit - user| →
        recalculate imgResultInit user disp = disp)
    ∧ (∀ user disp, user ≠ 0 → |imgResultInit - user| ≤ distance →
        recalculate imgResultInit user disp =
          some (jsRound ((1 - |imgResultInit - user| / distance) * 100))) := by
  constructor
  · rintro user disp (rfl | h)
    · simp [recalculate]
    · have hng : ¬(user ≠ 0 ∧ |imgResultInit - user| ≤ distance) := by
        rintro ⟨-, h2⟩
        exact absurd h (not_lt.mpr h2)
      simp only [recalculate, if_neg hng]
  · intro user disp h1 h2
    simp only [recalculate]
    rw [if_pos ⟨h1, h2⟩]

/-- C2 witness: the scoring branch of the amended claim applied at live
angle 10 against the never-stored reference. -/
theorem recalculate_absent_reference_witness :
    recalculate imgResultInit 10 none =
      some (jsRound ((1 - |imgResultInit - 10| / distance) * 100)) :=
  recalculate_absent_reference.2 10 none (by norm_num)
    (by norm_num [imgResultInit, distance])

/-- C2 counterexample: the reference angle was never stored
(`imgResult.leftElbow` still holds its initial 0), the live angle is 10, and
the scoring operation nevertheless produces and displays the score 50 — it
does not return "no score" regardless of the live angle. -/
theorem recalculate_absent_reference_counterexample :
    imgResultInit = 0 ∧ recalculate imgResultInit 10 none = some 50 := by
  constructor
  · rfl
  · norm_num [recalculate, imgResultInit, jsRound, distance]

/-- C5.  On every out-of-tolerance frame — the delta between the stored
reference and live angles exceeds `distance` — `recalculate` performs no write:
the previously displayed score is left exactly as it was (sticky display). -/
theorem recalculate_sticky_out_of_tolerance :
    ∀ img user disp, distance < |img - user| →
      recalculate img user disp = disp := by
  intro img user disp h
  have hng : ¬(user ≠ 0 ∧ |img - user| ≤ distance) := by
    rintro ⟨-, h2⟩
    exact absurd h (not_lt.mpr h2)
  simp only [recalculate, if_neg hng]

/-- C5 witness: reference 90, live 111, prior display 7 — the delta 21 exceeds
the tolerance 20 and the display keeps its prior content. -/
theorem recalculate_sticky_out_of_tolerance_witness :
    recalculate 90 111 (some 7) = some 7 :=
  recalculate_sticky_out_of_tolerance 90 111 (some 7) (by norm_num [distance])

/-- C9.  When the computed live elbow angle is exactly 0 — or was never
computed, leaving the initial value 0 of `userResult.leftElbow` — `recalculate`
never updates the displayed score, for every reference angle, including
references for which the delta 0 ≤ `distance` would be within tolerance: the
guard tests the live angle for JavaScript truthiness, not for presence. -/
theorem recalculate_zero_live_angle_no_update :
    ∀ img disp, recalculate img 0 disp = disp := by
  intro img disp
  simp [recalculate]

/-- C3 (amended).  The reference-image tensor is released exactly on the
success path of `testImageAndEstimatePoses`: `input.dispose()` runs — after
the confidence check and reference-angle extraction, not immediately after the
call returns — when and only when the estimation call resolves with a
non-empty pose list.  When the estimation call rejects, or resolves with no
pose (so that `predictedPoses.score` throws), the function exits without
releasing the tensor. -/
theorem refLoad_dispose_on_success_only :
    ∀ est angle imgLeftElbow0 minPoseConfidence,
      (testImageAndEstimatePoses est angle imgLeftElbow0 minPoseConfidence).2 = true ↔
        ∃ q, (testImageAndEstimatePoses est angle imgLeftElbow0
          minPoseConfidence).1 = Except.ok q := by
  intro est angle i θ
  match est with
  | Except.error e => simp [testImageAndEstimatePoses]
  | Except.ok [] => simp [testImageAndEstimatePoses]
  | Except.ok (p :: ps) => simp [testImageAndEstimatePoses]

/-- C3 counterexample: two failure exit paths of the reference load on which
the tensor created from the reference image pixels is never released — the
estimation call rejecting, and the estimation call resolving with an empty pose
list (making the `predictedPoses.score` access throw before `input.dispose()`).
This refutes release "on every exit path, on success and on failure alike". -/
theorem refLoad_dispose_counterexample :
    (testImageAndEstimatePoses (Except.error ()) (fun _ => 0) imgResultInit
        minPoseConfidenceSingle).2 = false
    ∧ (testImageAndEstimatePoses (Except.ok []) (fun _ => 0) imgResultInit
        minPoseConfidenceSingle).2 = false := by
  exact ⟨rfl, rfl⟩

/-- C4.  Over any number of runs of the frame loop, the reentrancy monitor
accepts the event trace: a second per-frame `estimatePoses` call is never
issued while a prior one is still in flight, because
`requestAnimationFrame(poseDetectionFrame)` is reached only after the current
run's awaited estimation call has resolved and been consumed. -/
theorem frameLoop_single_in_flight :
    ∀ n, singleInFlight false (loopEvents n) = true := by
  intro n
  induction n with
  | zero => rfl
  | succ n ih =>
      simpa [loopEvents, tickEvents, singleInFlight] using ih

/-- C6 (spec-modelled: `calculateAngle` of `src/utils.js` is not among the
provided sources).  Whenever the vertex coincides with one of the two other
points — a zero-length vector — `angleOf` fails with the `DegenerateGeometry`
signal instead of returning an undefined value; on every non-degenerate triple
it succeeds with an angle in the interval [0, 180]. -/
theorem angleOf_degenerate_and_bounds :
    (∀ v a b : Keypoint,
        ((a.x - v.x = 0 ∧ a.y - v.y = 0) ∨ (b.x - v.x = 0 ∧ b.y - v.y = 0)) →
        angleOf v a b = Except.error DegenerateGeometry.degenerate)
    ∧ (∀ v a b : Keypoint,
        ¬((a.x - v.x = 0 ∧ a.y - v.y = 0) ∨ (b.x - v.x = 0 ∧ b.y - v.y = 0)) →
        ∃ r, angleOf v a b = Except.ok r ∧ 0 ≤ r ∧ r ≤ 180) := by
  constructor
  · intro v a b h
    simp only [angleOf]
    rw [if_pos h]
  · intro v a b h
    simp only [angleOf]
    rw [if_neg h]
    refine ⟨_, rfl, ?_, ?_⟩
    · have h1 := Real.arccos_nonneg (((a.x - v.x) * (b.x - v.x) +
        (a.y - v.y) * (b.y - v.y) : ℚ) /
        (Real.sqrt (((a.x - v.x : ℚ) : ℝ) ^ 2 + ((a.y - v.y : ℚ) : ℝ) ^ 2) *
          Real.sqrt (((b.x - v.x : ℚ) : ℝ) ^ 2 + ((b.y - v.y : ℚ) : ℝ) ^ 2)))
      have hpi := Real.pi_pos
      positivity
    · rw [div_le_iff₀ Real.pi_pos]
      calc Real.arccos _ * 180 ≤ Real.pi * 180 := by
            apply mul_le_mul_of_nonneg_right (Real.arccos_le_pi _) (by norm_num)
        _ = 180 * Real.pi := mul_comm _ _

/-- C6 witness: the degenerate triple with the vertex equal to the first point
fails with `DegenerateGeometry`; the non-degenerate right-angle triple at the
origin succeeds with an angle inside [0, 180]. -/
theorem angleOf_degenerate_and_bounds_witness :
    angleOf ⟨0, 0, 1⟩ ⟨0, 0, 1⟩ ⟨1, 0, 1⟩ =
        Except.error DegenerateGeometry.degenerate
    ∧ ∃ r, angleOf ⟨0, 0, 1⟩ ⟨1, 0, 1⟩ ⟨0, 1, 1⟩ = Except.ok r ∧
        0 ≤ r ∧ r ≤ 180 :=
  ⟨angleOf_degenerate_and_bounds.1 _ _ _ (by norm_num),
   angleOf_degenerate_and_bounds.2 _ _ _ (by norm_num)⟩

/-- C7.  The live-extraction path (camera.js line 163) and the reference-load
path (camera.js line 229) compute the angle feature from the identical
landmark triple — keypoints 9, 7, 5 — with the identical angle function:
feeding the same keypoint list to both paths yields the identical result. -/
theorem live_and_reference_extraction_agree :
    ∀ keypoints, liveLeftElbowOf keypoints = imgLeftElbowOf keypoints :=
  fun _ => rfl

/-- C8.  In multi-subject mode (and any mode), a frame in which the pose list
contains exactly N poses at or above the pose-confidence threshold performs
exactly N live-state/score comparisons, in order; each comparison's outcome is
computed from the shared reference angle `img` and that pose's own keypoints
alone — the other poses and the inherited frame state do not influence it. -/
theorem posesForEach_independent_outcomes :
    ∀ angle minPoseConfidence img s poses,
      (posesForEach angle minPoseConfidence img s poses).2 =
        (poses.filter (fun p => decide (minPoseConfidence ≤ p.score))).map
          (fun p => recalculateWrite img (angle p.keypoints))
      ∧ (posesForEach angle minPoseConfidence img s poses).2.length =
          (poses.filter (fun p => decide (minPoseConfidence ≤ p.score))).length := by
  intro angle θ img s poses
  have hmap : ∀ (s : FrameState) (poses : List Pose),
      (posesForEach angle θ img s poses).2 =
        (poses.filter (fun p => decide (θ ≤ p.score))).map
          (fun p => recalculateWrite img (angle p.keypoints)) := by
    intro s poses
    induction poses generalizing s with
    | nil => rfl
    | cons p ps ih =>
        by_cases h : θ ≤ p.score
        · simp [posesForEach, h, List.filter_cons, ih]
        · simp [posesForEach, h, List.filter_cons, ih]
  refine ⟨hmap s poses, ?_⟩
  rw [hmap s poses, List.length_map]

/-- C10.  `bindPage` starts the continuous frame loop (line 261) strictly
before it initiates the one-shot reference-image estimation (line 262); the
reference angle is the number 0 initially, not an absent marker; and in the
interleaving semantics a state is reachable in which the reference load has
not completed, the reference angle is still 0, and a live frame has
nevertheless been scored and displayed against that 0. -/
theorem bindPage_scores_before_reference_load :
    bindPageEvents.indexOf StartupStep.startFrameLoop <
      bindPageEvents.indexOf StartupStep.startRefLoad
    ∧ imgResultInit = 0
    ∧ ∃ s, Relation.ReflTransGen SysStep initState s ∧
        s.refLoadDone = false ∧ s.imgLeftElbow = 0 ∧ s.display = some 50 := by
  refine ⟨by decide, rfl, ?_⟩
  refine ⟨_, Relation.ReflTransGen.single (SysStep.frameTick 10 initState),
    rfl, rfl, ?_⟩
  show recalculate initState.imgLeftElbow 10 initState.display = some 50
  norm_num [initState, imgResultInit, userResultInit, recalculate, jsRound,
    distance]
